import Mathlib

/-!
Shallow embedding of `src/solicit_async.rs` from the rust-http2 repository.

A transport byte stream is a `List Nat` of bytes (each < 256 on the wire;
the embedding does not need the bound).  Reading functions take the stream
and return a result together with the remaining stream, so consumption is
observable.  Frame-level functions (`recv_http_frame` and everything built
on it) operate on the list of already-decoded frames, because the
type-specific decoder `HttpFrame::from_raw` lives in the `solicit` module
which is not part of the given sources; the loop logic of
`recv_http_frame_join_cont` is translated verbatim from the source.
-/

namespace Http2

/-- Modelled from the spec: the fourteen RFC 7540 error codes listed in
section 6 of the spec (the `ErrorCode` enum is not among the given sources). -/
inductive ErrorCode where
  | NoError
  | ProtocolError
  | InternalError
  | FlowControlError
  | SettingsTimeout
  | StreamClosed
  | FrameSizeError
  | RefusedStream
  | Cancel
  | CompressionError
  | ConnectError
  | EnhanceYourCalm
  | InadequateSecurity
  | Http11Required
deriving DecidableEq, Repr

/-- Modelled from the spec: the error type of the library (`error::Error` is
not among the given sources).  Only the constructors used by
`solicit_async.rs` are modelled: `CodeError` (carrying an HTTP/2 error
code), `InvalidFrame` (carrying a message), `Other` (carrying a static
message), and an I/O error for a transport that ends early. -/
inductive Error where
  | IOError
  | CodeError (code : ErrorCode)
  | InvalidFrame (msg : String)
  | Other (msg : String)
deriving DecidableEq, Repr

/-- Modelled from the spec: `read_exact` from tokio reads exactly `n` bytes
from the stream, failing with an I/O error when the stream is shorter.
Returns the bytes read together with the rest of the stream; on failure the
stream is unchanged. -/
def read_exact (n : Nat) (s : List Nat) : Except Error (List Nat) × List Nat :=
  if n ≤ s.length then (Except.ok (s.take n), s.drop n) else (Except.error Error.IOError, s)

/-- FRAME_HEADER_LEN from `solicit::frame`: an HTTP/2 frame header is 9 bytes. -/
def FRAME_HEADER_LEN : Nat := 9

/-- Modelled from the spec: the decoded 9-byte frame header, "24-bit length,
8-bit type, 8-bit flags, 32-bit stream id (top bit reserved and cleared)"
(`solicit::frame::FrameHeader` is not among the given sources). -/
structure FrameHeader where
  length : Nat
  frame_type : Nat
  flags : Nat
  stream_id : Nat
deriving DecidableEq, Repr

/-- Modelled from the spec: `unpack_header` decodes the 9 header bytes,
big-endian, clearing the reserved top bit of the stream id
(`solicit::frame::unpack_header` is not among the given sources). -/
def unpack_header (b : List Nat) : FrameHeader :=
  { length := b.getD 0 0 * 65536 + b.getD 1 0 * 256 + b.getD 2 0
    frame_type := b.getD 3 0
    flags := b.getD 4 0
    stream_id :=
      (b.getD 5 0 % 128) * 16777216 + b.getD 6 0 * 65536 + b.getD 7 0 * 256 + b.getD 8 0 }

/-- `solicit::frame::RawFrame`: an undecoded frame, header bytes included. -/
structure RawFrame where
  raw_content : List Nat
deriving DecidableEq, Repr

/-- `recv_raw_frame` from `solicit_async.rs`: read the 9 header bytes; if the
declared length exceeds `max_frame_size` fail with
`CodeError(FrameSizeError)` before touching the payload; otherwise read the
payload and return the raw frame (header bytes followed by payload bytes). -/
def recv_raw_frame (s : List Nat) (max_frame_size : Nat) :
    Except Error RawFrame × List Nat :=
  match read_exact FRAME_HEADER_LEN s with
  | (Except.error e, s1) => (Except.error e, s1)
  | (Except.ok raw_header, s1) =>
    let header := unpack_header raw_header
    if header.length > max_frame_size then
      (Except.error (Error.CodeError ErrorCode.FrameSizeError), s1)
    else
      match read_exact header.length s1 with
      | (Except.error e, s2) => (Except.error e, s2)
      | (Except.ok payload, s2) => (Except.ok ⟨raw_header ++ payload⟩, s2)

/-- `SyncRead` from `solicit_async.rs`: a wrapper that forwards every read to
the wrapped reader unchanged; on byte streams it is the identity. -/
def SyncRead (r : List Nat) : List Nat := r

/-- `recv_raw_frame_sync` from `solicit_async.rs`: wrap the reader in
`SyncRead`, run `recv_raw_frame`, wait, and keep only the frame component. -/
def recv_raw_frame_sync (read : List Nat) (max_frame_size : Nat) :
    Except Error RawFrame :=
  (recv_raw_frame (SyncRead read) max_frame_size).1

/-- Modelled from the spec: flag test on a frame flag byte.  The solicit
flag sets (`Flags<HeadersFlag>` etc.) are not among the given sources; the
END_HEADERS flag is bit 0x4 of the flags byte for HEADERS, PUSH_PROMISE and
CONTINUATION, and ACK is bit 0x1 for SETTINGS, per RFC 7540. -/
def flagIsSet (flags : Nat) (bit : Nat) : Bool := flags.testBit bit

/-- Modelled from the spec: set a flag bit in a frame flag byte. -/
def flagSet (flags : Nat) (bit : Nat) : Nat := flags ||| (2 ^ bit)

/-- END_HEADERS is 0x4, that is bit 2 of the flags byte. -/
def END_HEADERS_BIT : Nat := 2

/-- ACK is 0x1, that is bit 0 of the SETTINGS flags byte. -/
def ACK_BIT : Nat := 0

/-- Modelled from the spec: a decoded HEADERS frame with its stream id, flag
byte and header-block fragment (`solicit::frame::headers::HeadersFrame` is
not among the given sources; only the fields used by `solicit_async.rs` are
modelled). -/
structure HeadersFrame where
  stream_id : Nat
  flags : Nat
  header_fragment : List Nat
deriving DecidableEq, Repr

/-- Modelled from the spec: a decoded PUSH_PROMISE frame
(`solicit::frame::push_promise::PushPromiseFrame` is not among the given
sources). -/
structure PushPromiseFrame where
  stream_id : Nat
  promised_stream_id : Nat
  flags : Nat
  header_fragment : List Nat
deriving DecidableEq, Repr

/-- Modelled from the spec: a decoded CONTINUATION frame. -/
structure ContinuationFrame where
  stream_id : Nat
  flags : Nat
  header_fragment : List Nat
deriving DecidableEq, Repr

/-- `is_headers_end` on a CONTINUATION frame: the END_HEADERS flag is set. -/
def ContinuationFrame.is_headers_end (c : ContinuationFrame) : Bool :=
  flagIsSet c.flags END_HEADERS_BIT

/-- Modelled from the spec: one HTTP/2 setting
(`solicit::frame::settings::HttpSetting` is not among the given sources).
The six RFC-defined keys. -/
inductive HttpSetting where
  | HeaderTableSize (v : Nat)
  | EnablePush (v : Bool)
  | MaxConcurrentStreams (v : Nat)
  | InitialWindowSize (v : Nat)
  | MaxFrameSize (v : Nat)
  | MaxHeaderListSize (v : Nat)
deriving DecidableEq, Repr

/-- Modelled from the spec: a decoded SETTINGS frame
(`solicit::frame::settings::SettingsFrame` is not among the given sources). -/
structure SettingsFrame where
  flags : Nat
  settings : List HttpSetting
deriving DecidableEq, Repr

/-- `SettingsFrame::new()`: an empty SETTINGS frame with no flags. -/
def SettingsFrame.new : SettingsFrame := ⟨0, []⟩

/-- `SettingsFrame::add_setting`. -/
def SettingsFrame.add_setting (f : SettingsFrame) (s : HttpSetting) : SettingsFrame :=
  { f with settings := f.settings ++ [s] }

/-- `SettingsFrame::is_ack`: the ACK flag is set. -/
def SettingsFrame.is_ack (f : SettingsFrame) : Bool := flagIsSet f.flags ACK_BIT

/-- Modelled from the spec: the tagged frame variant of section 3,
"{DATA, HEADERS, PRIORITY, RST_STREAM, SETTINGS, PUSH_PROMISE, PING, GOAWAY,
WINDOW_UPDATE, CONTINUATION, unknown}" (`solicit::connection::HttpFrame` is
not among the given sources). -/
inductive HttpFrame where
  | Data (stream_id : Nat) (flags : Nat) (data : List Nat)
  | Headers (f : HeadersFrame)
  | Priority (stream_id : Nat) (dependency : Nat) (weight : Nat)
  | RstStream (stream_id : Nat) (error_code : Nat)
  | Settings (f : SettingsFrame)
  | PushPromise (f : PushPromiseFrame)
  | Ping (flags : Nat) (data : List Nat)
  | Goaway (last_stream_id : Nat) (error_code : Nat)
  | WindowUpdate (stream_id : Nat) (increment : Nat)
  | Continuation (f : ContinuationFrame)
  | Unknown (frame_type : Nat) (payload : List Nat)
deriving DecidableEq, Repr

/-- Modelled from the spec: the debug name of a frame type, as printed by
`{:?}` on `HttpFrameType` in the SETTINGS error message (the type is not
among the given sources). -/
def HttpFrame.frame_type_name : HttpFrame → String
  | HttpFrame.Data _ _ _ => "Data"
  | HttpFrame.Headers _ => "Headers"
  | HttpFrame.Priority _ _ _ => "Priority"
  | HttpFrame.RstStream _ _ => "RstStream"
  | HttpFrame.Settings _ => "Settings"
  | HttpFrame.PushPromise _ => "PushPromise"
  | HttpFrame.Ping _ _ => "Ping"
  | HttpFrame.Goaway _ _ => "Goaway"
  | HttpFrame.WindowUpdate _ _ => "WindowUpdate"
  | HttpFrame.Continuation _ => "Continuation"
  | HttpFrame.Unknown _ _ => "Unknown"

/-- `recv_http_frame` from `solicit_async.rs`, at the decoded-frame level:
receive the next HTTP frame from the reader.  Modelled from the spec for the
decoding step: `HttpFrame::from_raw` is not among the given sources, so the
reader is modelled as yielding the already-decoded frame sequence; an
exhausted reader is an I/O error. -/
def recv_http_frame : List HttpFrame → Except Error (List HttpFrame × HttpFrame)
  | [] => Except.error Error.IOError
  | f :: rest => Except.ok (rest, f)

/-- `ContinuableFrame` from `recv_http_frame_join_cont`: the frame that may
be continued, HEADERS or PUSH_PROMISE. -/
inductive ContinuableFrame where
  | Headers (h : HeadersFrame)
  | PushPromise (p : PushPromiseFrame)
deriving DecidableEq, Repr

/-- `ContinuableFrame::into_frame`. -/
def ContinuableFrame.into_frame : ContinuableFrame → HttpFrame
  | ContinuableFrame.Headers headers => HttpFrame.Headers headers
  | ContinuableFrame.PushPromise push_promise => HttpFrame.PushPromise push_promise

/-- `ContinuableFrame::extend_header_fragment`: append bytes to the stored
header-block fragment. -/
def ContinuableFrame.extend_header_fragment :
    ContinuableFrame → List Nat → ContinuableFrame
  | ContinuableFrame.Headers headers, bytes =>
    ContinuableFrame.Headers
      { headers with header_fragment := headers.header_fragment ++ bytes }
  | ContinuableFrame.PushPromise push_promise, bytes =>
    ContinuableFrame.PushPromise
      { push_promise with header_fragment := push_promise.header_fragment ++ bytes }

/-- `ContinuableFrame::set_end_headers`. -/
def ContinuableFrame.set_end_headers : ContinuableFrame → ContinuableFrame
  | ContinuableFrame.Headers headers =>
    ContinuableFrame.Headers { headers with flags := flagSet headers.flags END_HEADERS_BIT }
  | ContinuableFrame.PushPromise push_promise =>
    ContinuableFrame.PushPromise
      { push_promise with flags := flagSet push_promise.flags END_HEADERS_BIT }

/-- `ContinuableFrame::get_stream_id`. -/
def ContinuableFrame.get_stream_id : ContinuableFrame → Nat
  | ContinuableFrame.Headers headers => headers.stream_id
  | ContinuableFrame.PushPromise push_promise => push_promise.stream_id

/-- The loop body of `recv_http_frame_join_cont` (`loop_fn` over the state
`(read, Option ContinuableFrame)`), translated arm by arm from the source.
The call to `recv_http_frame` is inlined as the head split of the frame list
so that the recursion is structural. -/
def joinContLoop : List HttpFrame → Option ContinuableFrame →
    Except Error (List HttpFrame × HttpFrame)
  | [], _ => Except.error Error.IOError
  | frame :: read, header_opt =>
    match frame with
    | HttpFrame.Headers h =>
      match header_opt with
      | some _ => Except.error (Error.Other ("expecting CONTINUATION frame, got HEADERS"))
      | none =>
        if flagIsSet h.flags END_HEADERS_BIT then
          Except.ok (read, HttpFrame.Headers h)
        else
          joinContLoop read (some (ContinuableFrame.Headers h))
    | HttpFrame.PushPromise p =>
      match header_opt with
      | some _ => Except.error (Error.Other ("expecting CONTINUATION frame, got PUSH_PROMISE"))
      | none =>
        if flagIsSet p.flags END_HEADERS_BIT then
          Except.ok (read, HttpFrame.PushPromise p)
        else
          joinContLoop read (some (ContinuableFrame.PushPromise p))
    | HttpFrame.Continuation c =>
      match header_opt with
      | some h =>
        if h.get_stream_id ≠ c.stream_id then
          Except.error (Error.Other ("CONTINUATION frame with different stream id"))
        else
          let header_end := c.is_headers_end
          let h2 := h.extend_header_fragment c.header_fragment
          if header_end then
            Except.ok (read, h2.set_end_headers.into_frame)
          else
            joinContLoop read (some h2)
      | none => Except.error (Error.Other ("CONTINUATION frame without headers"))
    | f =>
      match header_opt with
      | some _ => Except.error (Error.Other ("expecting CONTINUATION frame"))
      | none => Except.ok (read, f)

/-- `recv_http_frame_join_cont` from `solicit_async.rs`: receive an HTTP
frame, joining CONTINUATION frames with the preceding HEADERS or
PUSH_PROMISE frame.  The loop starts with no pending continuable frame. -/
def recv_http_frame_join_cont (read : List HttpFrame) :
    Except Error (List HttpFrame × HttpFrame) :=
  joinContLoop read none

/-- `recv_settings_frame` from `solicit_async.rs`: receive a frame and
require it to be SETTINGS. -/
def recv_settings_frame (read : List HttpFrame) :
    Except Error (List HttpFrame × SettingsFrame) :=
  match recv_http_frame read with
  | Except.error e => Except.error e
  | Except.ok (read, http_frame) =>
    match http_frame with
    | HttpFrame.Settings f => Except.ok (read, f)
    | f =>
      Except.error (Error.InvalidFrame
        ("unexpected frame, expected SETTINGS, got " ++ f.frame_type_name))

/-- `recv_settings_frame_ack` from `solicit_async.rs`: receive a SETTINGS
frame and require the ACK flag. -/
def recv_settings_frame_ack (read : List HttpFrame) :
    Except Error (List HttpFrame × SettingsFrame) :=
  match recv_settings_frame read with
  | Except.error e => Except.error e
  | Except.ok (read, frame) =>
    if frame.is_ack then
      Except.ok (read, frame)
    else
      Except.error (Error.InvalidFrame ("expecting SETTINGS with ack, got without ack"))

/-- `recv_settings_frame_set` from `solicit_async.rs`: receive a SETTINGS
frame and require the ACK flag to be clear. -/
def recv_settings_frame_set (read : List HttpFrame) :
    Except Error (List HttpFrame × SettingsFrame) :=
  match recv_settings_frame read with
  | Except.error e => Except.error e
  | Except.ok (read, frame) =>
    if ¬frame.is_ack then
      Except.ok (read, frame)
    else
      Except.error (Error.InvalidFrame ("expecting SETTINGS without ack, got with ack"))

/-- The 24-byte connection preface `PRI * HTTP/2.0\r\n\r\nSM\r\n\r\n` as bytes. -/
def PREFACE : List Nat :=
  ("PRI * HTTP/2.0" ++ "\r\n\r\n" ++ "SM" ++ "\r\n\r\n").data.map Char.toNat

/-- Modelled from the spec: big-endian byte encoding of `v` in `n` bytes
(frame serialization via `FrameIR::serialize_into_vec` is not among the
given sources; the spec fixes RFC 7540 framing bit-for-bit). -/
def beBytes (n : Nat) (v : Nat) : List Nat :=
  (List.range n).map (fun i => v / 256 ^ (n - 1 - i) % 256)

/-- Modelled from the spec: the identifier (u16) and value (u32) of one
setting on the wire, per RFC 7540 section 6.5.2. -/
def HttpSetting.wire : HttpSetting → Nat × Nat
  | HttpSetting.HeaderTableSize v => (1, v)
  | HttpSetting.EnablePush v => (2, if v then 1 else 0)
  | HttpSetting.MaxConcurrentStreams v => (3, v)
  | HttpSetting.InitialWindowSize v => (4, v)
  | HttpSetting.MaxFrameSize v => (5, v)
  | HttpSetting.MaxHeaderListSize v => (6, v)

/-- Modelled from the spec: serialization of a SETTINGS frame, "The header
is exactly 9 bytes: 24-bit length, 8-bit type, 8-bit flags, 32-bit stream
id"; SETTINGS has type 0x4, stream id 0, and each setting is 6 payload
bytes. -/
def SettingsFrame.serialize (f : SettingsFrame) : List Nat :=
  beBytes 3 (6 * f.settings.length) ++ [4, f.flags] ++ beBytes 4 0 ++
    f.settings.flatMap (fun s => beBytes 2 s.wire.1 ++ beBytes 4 s.wire.2)

/-- The SETTINGS frame built by `send_settings`: `SettingsFrame::new()` plus
`HttpSetting::EnablePush(false)`. -/
def initialSettings : SettingsFrame :=
  SettingsFrame.new.add_setting (HttpSetting.EnablePush false)

/-- `send_settings` from `solicit_async.rs`, as the bytes it writes: the
serialized initial SETTINGS frame. -/
def send_settings : List Nat := initialSettings.serialize

/-- `client_handshake` from `solicit_async.rs`, as the bytes it writes: the
24-byte preface followed by the initial SETTINGS frame, and nothing else. -/
def client_handshake : List Nat := PREFACE ++ send_settings

/-- Modelled from the spec: `BsDebug` from `misc.rs` (not among the given
sources) renders the received bytes for the error message; modelled as a
hexadecimal dump over the alphabet 0-9, a-f and spaces. -/
def hexDigits : List Char := ("0123456789abcdef").data

/-- One nibble as a hexadecimal character. -/
def hexChar (n : Nat) : Char := hexDigits.getD n '0'

/-- Modelled from the spec: the byte-dump string for `BsDebug`. -/
def bsDebug (bytes : List Nat) : String :=
  ⟨bytes.flatMap (fun b => [hexChar (b / 16 % 16), hexChar (b % 16), ' '])⟩

/-- `server_handshake` from `solicit_async.rs`: read exactly 24 bytes; on a
match with the preface write the initial SETTINGS frame; on a mismatch fail
with an `InvalidFrame` error whose message carries the "likely TLS" hint
exactly when the first received byte is 0x16.  Returns the status, the
remaining input stream, and the bytes written. -/
def server_handshake (conn : List Nat) :
    Except Error Unit × List Nat × List Nat :=
  match read_exact PREFACE.length conn with
  | (Except.error e, s1) => (Except.error e, s1, [])
  | (Except.ok preface_buf, s1) =>
    if preface_buf = PREFACE then
      (Except.ok (), s1, send_settings)
    else
      if preface_buf.getD 0 0 = 0x16 then
        (Except.error (Error.InvalidFrame
          ("wrong preface, likely TLS: " ++ bsDebug preface_buf)), s1, [])
      else
        (Except.error (Error.InvalidFrame
          ("wrong preface: " ++ bsDebug preface_buf)), s1, [])

/-- A string contains the hint "likely TLS": it splits as some prefix, the
hint, and some suffix. -/
def containsLikelyTls (m : String) : Prop :=
  ∃ a b : List Char, m.data = a ++ ("likely TLS").data ++ b

/-- The message of an `InvalidFrame` error, when the result is one. -/
def invalidFrameMsg : Except Error Unit → Option String
  | Except.error (Error.InvalidFrame m) => some m
  | _ => none

/-- The error result carries an `InvalidFrame` message containing the
"likely TLS" hint. -/
def msgContainsHint (r : Except Error Unit) : Prop :=
  ∃ m, invalidFrameMsg r = some m ∧ containsLikelyTls m

/-! ## Theorems -/

/-- C3: when the 24-bit length field of the 9-byte header exceeds
`max_frame_size`, `recv_raw_frame` fails with `CodeError(FrameSizeError)`
and consumes exactly the 9 header bytes, none of the payload. -/
theorem recv_raw_frame_oversize (s : List Nat) (max_frame_size : Nat)
    (h9 : 9 ≤ s.length)
    (hbig : max_frame_size < (unpack_header (s.take 9)).length) :
    recv_raw_frame s max_frame_size =
      (Except.error (Error.CodeError ErrorCode.FrameSizeError), s.drop 9) := by
  unfold recv_raw_frame read_exact FRAME_HEADER_LEN
  simp only [h9, if_pos]
  simp [hbig]

/-- C3 witness: a header declaring length 1 against `max_frame_size = 0`
fails with `FrameSizeError` leaving the payload byte unread. -/
theorem recv_raw_frame_oversize_witness :
    recv_raw_frame [0, 0, 1, 0, 0, 0, 0, 0, 0, 55] 0 =
      (Except.error (Error.CodeError ErrorCode.FrameSizeError), [55]) := by
  rw [recv_raw_frame_oversize [0, 0, 1, 0, 0, 0, 0, 0, 0, 55] 0 (by decide) (by decide)]
  rfl

/-- C4: when the declared length `L` is within `max_frame_size` and the
stream holds at least `9 + L` bytes, `recv_raw_frame` succeeds, consumes
exactly `9 + L` bytes, and returns the raw frame made of the 9 header bytes
followed by the `L` payload bytes. -/
theorem recv_raw_frame_ok (s : List Nat) (max_frame_size : Nat)
    (hmax : (unpack_header (s.take 9)).length ≤ max_frame_size)
    (hlen : 9 + (unpack_header (s.take 9)).length ≤ s.length) :
    recv_raw_frame s max_frame_size =
      (Except.ok ⟨s.take (9 + (unpack_header (s.take 9)).length)⟩,
        s.drop (9 + (unpack_header (s.take 9)).length)) := by
  have h9 : 9 ≤ s.length := le_trans (Nat.le_add_right 9 _) hlen
  have hrest : (unpack_header (s.take 9)).length ≤ (s.drop 9).length := by
    rw [List.length_drop]
    omega
  unfold recv_raw_frame read_exact FRAME_HEADER_LEN
  simp only [h9, if_pos]
  simp only [gt_iff_lt, not_lt.mpr hmax, if_false, hrest, if_pos, if_true]
  rw [List.take_add, List.drop_drop, Nat.add_comm]

/-- C4 witness: a SETTINGS-typed header declaring length 1 followed by one
payload byte and one extra byte is consumed up to exactly byte 10. -/
theorem recv_raw_frame_ok_witness :
    recv_raw_frame [0, 0, 1, 4, 0, 0, 0, 0, 0, 99, 7] 16384 =
      (Except.ok ⟨[0, 0, 1, 4, 0, 0, 0, 0, 0, 99]⟩, [7]) := by
  rw [recv_raw_frame_ok [0, 0, 1, 4, 0, 0, 0, 0, 0, 99, 7] 16384 (by decide) (by decide)]
  rfl

/-- C9: `recv_raw_frame_sync` returns exactly the frame (or the error) that
the asynchronous `recv_raw_frame` produces on the same byte source with the
same `max_frame_size`. -/
theorem recv_raw_frame_sync_refines (read : List Nat) (max_frame_size : Nat) :
    recv_raw_frame_sync read max_frame_size = (recv_raw_frame read max_frame_size).1 :=
  rfl

/-- C7: `client_handshake` writes exactly the 24-byte preface followed by
the serialized initial SETTINGS frame, whose settings include
ENABLE_PUSH = 0, and nothing else. -/
theorem client_handshake_writes :
    client_handshake = PREFACE ++ initialSettings.serialize ∧
    PREFACE.length = 24 ∧
    HttpSetting.EnablePush false ∈ initialSettings.settings := by
  refine ⟨rfl, by decide, ?_⟩
  simp [initialSettings, SettingsFrame.new, SettingsFrame.add_setting]

/-- Whether the END_HEADERS flag of a continuable frame is set. -/
def ContinuableFrame.endHeaders : ContinuableFrame → Bool
  | ContinuableFrame.Headers h => flagIsSet h.flags END_HEADERS_BIT
  | ContinuableFrame.PushPromise p => flagIsSet p.flags END_HEADERS_BIT

/-- Whether the END_HEADERS flag of a frame is set (false for frame kinds
that carry no header fragment). -/
def frameEndHeaders : HttpFrame → Bool
  | HttpFrame.Headers h => flagIsSet h.flags END_HEADERS_BIT
  | HttpFrame.PushPromise p => flagIsSet p.flags END_HEADERS_BIT
  | HttpFrame.Continuation c => flagIsSet c.flags END_HEADERS_BIT
  | _ => false

/-- The frame the claim describes: same kind as `cf`, header-block fragment
extended by `bs`, END_HEADERS flag set. -/
def joinedFrame : ContinuableFrame → List Nat → HttpFrame
  | ContinuableFrame.Headers h, bs =>
    HttpFrame.Headers
      { h with
        header_fragment := h.header_fragment ++ bs
        flags := flagSet h.flags END_HEADERS_BIT }
  | ContinuableFrame.PushPromise p, bs =>
    HttpFrame.PushPromise
      { p with
        header_fragment := p.header_fragment ++ bs
        flags := flagSet p.flags END_HEADERS_BIT }

theorem extend_get_stream_id (cf : ContinuableFrame) (b : List Nat) :
    (cf.extend_header_fragment b).get_stream_id = cf.get_stream_id := by
  cases cf <;> rfl

theorem joinedFrame_extend (cf : ContinuableFrame) (b bs : List Nat) :
    joinedFrame (cf.extend_header_fragment b) bs = joinedFrame cf (b ++ bs) := by
  cases cf <;> simp [joinedFrame, ContinuableFrame.extend_header_fragment, List.append_assoc]

theorem set_end_into_eq_joined (cf : ContinuableFrame) (b : List Nat) :
    ((cf.extend_header_fragment b).set_end_headers).into_frame = joinedFrame cf b := by
  cases cf <;> rfl

theorem flagIsSet_flagSet (flags bit : Nat) : flagIsSet (flagSet flags bit) bit = true := by
  simp [flagIsSet, flagSet, Nat.testBit_lor]

theorem frameEndHeaders_joinedFrame (cf : ContinuableFrame) (bs : List Nat) :
    frameEndHeaders (joinedFrame cf bs) = true := by
  cases cf <;> simp [joinedFrame, frameEndHeaders, flagIsSet_flagSet]

/-- With a pending continuable frame `cf`, a run of same-stream CONTINUATION
frames without END_HEADERS followed by a same-stream CONTINUATION with
END_HEADERS makes the loop return the joined frame and leave the remaining
frames untouched. -/
theorem joinContLoop_conts (conts : List ContinuationFrame) (cf : ContinuableFrame)
    (last : ContinuationFrame) (rest : List HttpFrame)
    (hmid : ∀ c ∈ conts, c.stream_id = cf.get_stream_id ∧ c.is_headers_end = false)
    (hlast_id : last.stream_id = cf.get_stream_id)
    (hlast_end : last.is_headers_end = true) :
    joinContLoop (conts.map HttpFrame.Continuation ++ HttpFrame.Continuation last :: rest)
        (some cf) =
      Except.ok (rest,
        joinedFrame cf
          ((conts.map ContinuationFrame.header_fragment).flatten ++ last.header_fragment)) := by
  induction conts generalizing cf with
  | nil =>
    simp [joinContLoop, hlast_id, hlast_end, set_end_into_eq_joined]
  | cons c cs ih =>
    have hc := hmid c (List.mem_cons_self c cs)
    have hcs : ∀ d ∈ cs,
        d.stream_id = (cf.extend_header_fragment c.header_fragment).get_stream_id ∧
          d.is_headers_end = false := by
      intro d hd
      rw [extend_get_stream_id]
      exact hmid d (List.mem_cons_of_mem c hd)
    simp only [List.map_cons, List.cons_append, joinContLoop, hc.1, ne_eq,
      not_true_eq_false, if_false, hc.2, Bool.false_eq_true, List.append_eq]
    rw [ih (cf.extend_header_fragment c.header_fragment) hcs
      (by rw [extend_get_stream_id]; exact hlast_id)]
    rw [joinedFrame_extend]
    simp [List.append_assoc]

/-- C1: a HEADERS or PUSH_PROMISE frame without END_HEADERS, followed by
zero or more same-stream CONTINUATION frames without END_HEADERS and one
same-stream CONTINUATION with END_HEADERS, makes
`recv_http_frame_join_cont` return a single frame of the initial kind whose
header-block fragment is the concatenation of the initial fragment and
every CONTINUATION fragment in arrival order, with END_HEADERS set. -/
theorem recv_join_cont_joins (cf : ContinuableFrame) (conts : List ContinuationFrame)
    (last : ContinuationFrame) (rest : List HttpFrame)
    (hstart : cf.endHeaders = false)
    (hmid : ∀ c ∈ conts, c.stream_id = cf.get_stream_id ∧ c.is_headers_end = false)
    (hlast_id : last.stream_id = cf.get_stream_id)
    (hlast_end : last.is_headers_end = true) :
    recv_http_frame_join_cont
        (cf.into_frame ::
          (conts.map HttpFrame.Continuation ++ HttpFrame.Continuation last :: rest)) =
      Except.ok (rest,
        joinedFrame cf
          ((conts.map ContinuationFrame.header_fragment).flatten ++
            last.header_fragment)) ∧
    frameEndHeaders
        (joinedFrame cf
          ((conts.map ContinuationFrame.header_fragment).flatten ++
            last.header_fragment)) = true := by
  refine ⟨?_, frameEndHeaders_joinedFrame cf _⟩
  have hloop := joinContLoop_conts conts cf last rest hmid hlast_id hlast_end
  cases cf with
  | Headers h =>
    simp only [ContinuableFrame.endHeaders] at hstart
    simp only [recv_http_frame_join_cont, ContinuableFrame.into_frame, joinContLoop,
      hstart, if_false]
    exact hloop
  | PushPromise p =>
    simp only [ContinuableFrame.endHeaders] at hstart
    simp only [recv_http_frame_join_cont, ContinuableFrame.into_frame, joinContLoop,
      hstart, if_false]
    exact hloop

/-- C1 witness: HEADERS(stream 1, fragment [10]) then CONTINUATION(stream 1,
fragment [11]) then CONTINUATION(stream 1, END_HEADERS, fragment [12])
joins to HEADERS(stream 1, END_HEADERS, fragment [10, 11, 12]). -/
theorem recv_join_cont_joins_witness :
    recv_http_frame_join_cont
        [HttpFrame.Headers ⟨1, 0, [10]⟩,
          HttpFrame.Continuation ⟨1, 0, [11]⟩,
          HttpFrame.Continuation ⟨1, 4, [12]⟩,
          HttpFrame.Ping 0 []] =
      Except.ok ([HttpFrame.Ping 0 []], HttpFrame.Headers ⟨1, 4, [10, 11, 12]⟩) := by
  have h := recv_join_cont_joins (ContinuableFrame.Headers ⟨1, 0, [10]⟩)
    [⟨1, 0, [11]⟩] ⟨1, 4, [12]⟩ [HttpFrame.Ping 0 []]
    (by decide) (by decide) (by decide) (by decide)
  have h1 := h.1
  simp only [ContinuableFrame.into_frame, List.map_cons, List.map_nil, List.cons_append,
    List.nil_append] at h1
  rw [h1]
  rfl

/-- C10: when the first decoded frame is neither a HEADERS or PUSH_PROMISE
lacking END_HEADERS nor a CONTINUATION, `recv_http_frame_join_cont` returns
that frame unchanged, and agrees with `recv_http_frame` on the same input. -/
theorem join_cont_passthrough (f : HttpFrame) (rest : List HttpFrame)
    (hh : ∀ h, f = HttpFrame.Headers h → flagIsSet h.flags END_HEADERS_BIT = true)
    (hp : ∀ p, f = HttpFrame.PushPromise p → flagIsSet p.flags END_HEADERS_BIT = true)
    (hc : ∀ c, f ≠ HttpFrame.Continuation c) :
    recv_http_frame_join_cont (f :: rest) = recv_http_frame (f :: rest) ∧
    recv_http_frame_join_cont (f :: rest) = Except.ok (rest, f) := by
  have hmain : recv_http_frame_join_cont (f :: rest) = Except.ok (rest, f) := by
    cases f with
    | Headers h => simp [recv_http_frame_join_cont, joinContLoop, hh h rfl]
    | PushPromise p => simp [recv_http_frame_join_cont, joinContLoop, hp p rfl]
    | Continuation c => exact absurd rfl (hc c)
    | Data sid fl d => rfl
    | Priority sid dep w => rfl
    | RstStream sid ec => rfl
    | Settings sf => rfl
    | Ping fl d => rfl
    | Goaway lid ec => rfl
    | WindowUpdate sid inc => rfl
    | Unknown ft pl => rfl
  exact ⟨hmain, hmain⟩

/-- C10 witness: a PING frame passes through the joining receiver
unchanged. -/
theorem join_cont_passthrough_witness :
    recv_http_frame_join_cont [HttpFrame.Ping 0 [1, 2]] =
      recv_http_frame [HttpFrame.Ping 0 [1, 2]] ∧
    recv_http_frame_join_cont [HttpFrame.Ping 0 [1, 2]] =
      Except.ok ([], HttpFrame.Ping 0 [1, 2]) :=
  join_cont_passthrough (HttpFrame.Ping 0 [1, 2]) []
    (fun _ h => nomatch h) (fun _ h => nomatch h) (fun _ h => nomatch h)

/-- C8: `recv_settings_frame_ack` succeeds exactly on a SETTINGS frame with
the ACK flag and `recv_settings_frame_set` exactly on a SETTINGS frame
without it; every other case fails with an `InvalidFrame` error. -/
theorem recv_settings_ack_set_spec (f : HttpFrame) (rest : List HttpFrame) :
    (∀ sf, f = HttpFrame.Settings sf →
      (sf.is_ack = true →
        recv_settings_frame_ack (f :: rest) = Except.ok (rest, sf) ∧
        recv_settings_frame_set (f :: rest) =
          Except.error
            (Error.InvalidFrame ("expecting SETTINGS without ack, got with ack"))) ∧
      (sf.is_ack = false →
        recv_settings_frame_set (f :: rest) = Except.ok (rest, sf) ∧
        recv_settings_frame_ack (f :: rest) =
          Except.error
            (Error.InvalidFrame ("expecting SETTINGS with ack, got without ack")))) ∧
    ((∀ sf, f ≠ HttpFrame.Settings sf) →
      recv_settings_frame_ack (f :: rest) =
        Except.error (Error.InvalidFrame
          ("unexpected frame, expected SETTINGS, got " ++ f.frame_type_name)) ∧
      recv_settings_frame_set (f :: rest) =
        Except.error (Error.InvalidFrame
          ("unexpected frame, expected SETTINGS, got " ++ f.frame_type_name))) := by
  constructor
  · rintro sf rfl
    constructor
    · intro hack
      constructor <;>
        simp [recv_settings_frame_ack, recv_settings_frame_set, recv_settings_frame,
          recv_http_frame, hack]
    · intro hack
      constructor <;>
        simp [recv_settings_frame_ack, recv_settings_frame_set, recv_settings_frame,
          recv_http_frame, hack]
  · intro hns
    cases f with
    | Settings sf => exact absurd rfl (hns sf)
    | Data sid fl d => exact ⟨rfl, rfl⟩
    | Headers h => exact ⟨rfl, rfl⟩
    | Priority sid dep w => exact ⟨rfl, rfl⟩
    | RstStream sid ec => exact ⟨rfl, rfl⟩
    | PushPromise p => exact ⟨rfl, rfl⟩
    | Ping fl d => exact ⟨rfl, rfl⟩
    | Goaway lid ec => exact ⟨rfl, rfl⟩
    | WindowUpdate sid inc => exact ⟨rfl, rfl⟩
    | Continuation c => exact ⟨rfl, rfl⟩
    | Unknown ft pl => exact ⟨rfl, rfl⟩

/-- C8 witness: a SETTINGS frame with ACK is accepted by the ack receiver
and one without ACK by the set receiver. -/
theorem recv_settings_ack_set_witness :
    recv_settings_frame_ack [HttpFrame.Settings ⟨1, []⟩] =
      Except.ok ([], (⟨1, []⟩ : SettingsFrame)) ∧
    recv_settings_frame_set [HttpFrame.Settings ⟨0, []⟩] =
      Except.ok ([], (⟨0, []⟩ : SettingsFrame)) := by
  constructor
  · exact (((recv_settings_ack_set_spec (HttpFrame.Settings ⟨1, []⟩) []).1
      ⟨1, []⟩ rfl).1 (by decide)).1
  · exact (((recv_settings_ack_set_spec (HttpFrame.Settings ⟨0, []⟩) []).1
      ⟨0, []⟩ rfl).2 (by decide)).1

/-- C2 counterexample: a HEADERS frame without END_HEADERS followed by a
DATA frame makes `recv_http_frame_join_cont` fail with
`Other("expecting CONTINUATION frame")`, not with the connection error code
`PROTOCOL_ERROR` the claim names. -/
theorem join_cont_violation_counterexample :
    recv_http_frame_join_cont
        [HttpFrame.Headers ⟨1, 0, []⟩, HttpFrame.Data 1 0 []] =
      Except.error (Error.Other ("expecting CONTINUATION frame")) ∧
    recv_http_frame_join_cont
        [HttpFrame.Headers ⟨1, 0, []⟩, HttpFrame.Data 1 0 []] ≠
      Except.error (Error.CodeError ErrorCode.ProtocolError) := by
  have h1 : recv_http_frame_join_cont
      [HttpFrame.Headers ⟨1, 0, []⟩, HttpFrame.Data 1 0 []] =
      Except.error (Error.Other ("expecting CONTINUATION frame")) := rfl
  refine ⟨h1, ?_⟩
  rw [h1]
  simp

/-- C2 (amended): after a HEADERS or PUSH_PROMISE without END_HEADERS, a
next frame that is not a CONTINUATION on the same stream makes
`recv_http_frame_join_cont` fail with an `Error::Other` protocol-violation
error, and an unsolicited CONTINUATION fails the same way. -/
theorem join_cont_violation (cf : ContinuableFrame) (f : HttpFrame) (rest : List HttpFrame)
    (c : ContinuationFrame) (rest2 : List HttpFrame)
    (hstart : cf.endHeaders = false)
    (hnotcont : ∀ cc : ContinuationFrame,
      f = HttpFrame.Continuation cc → cc.stream_id ≠ cf.get_stream_id) :
    (∃ m, recv_http_frame_join_cont (cf.into_frame :: f :: rest) =
      Except.error (Error.Other m)) ∧
    recv_http_frame_join_cont (HttpFrame.Continuation c :: rest2) =
      Except.error (Error.Other ("CONTINUATION frame without headers")) := by
  constructor
  · have hpend : recv_http_frame_join_cont (cf.into_frame :: f :: rest) =
        joinContLoop (f :: rest) (some cf) := by
      cases cf with
      | Headers h =>
        simp only [ContinuableFrame.endHeaders] at hstart
        simp [recv_http_frame_join_cont, ContinuableFrame.into_frame, joinContLoop, hstart]
      | PushPromise p =>
        simp only [ContinuableFrame.endHeaders] at hstart
        simp [recv_http_frame_join_cont, ContinuableFrame.into_frame, joinContLoop, hstart]
    rw [hpend]
    cases f with
    | Continuation cc =>
      have hne : cf.get_stream_id ≠ cc.stream_id := (hnotcont cc rfl).symm
      simp [joinContLoop, hne]
    | Headers h2 => exact ⟨_, rfl⟩
    | PushPromise p2 => exact ⟨_, rfl⟩
    | Data sid fl d => exact ⟨_, rfl⟩
    | Priority sid dep w => exact ⟨_, rfl⟩
    | RstStream sid ec => exact ⟨_, rfl⟩
    | Settings sf => exact ⟨_, rfl⟩
    | Ping fl d => exact ⟨_, rfl⟩
    | Goaway lid ec => exact ⟨_, rfl⟩
    | WindowUpdate sid inc => exact ⟨_, rfl⟩
    | Unknown ft pl => exact ⟨_, rfl⟩
  · rfl

/-- C2 witness: HEADERS(stream 1) without END_HEADERS followed by DATA
fails, and a stream starting with CONTINUATION fails. -/
theorem join_cont_violation_witness :
    (∃ m, recv_http_frame_join_cont
        [HttpFrame.Headers ⟨1, 0, []⟩, HttpFrame.Data 1 0 []] =
      Except.error (Error.Other m)) ∧
    recv_http_frame_join_cont [HttpFrame.Continuation ⟨5, 0, []⟩] =
      Except.error (Error.Other ("CONTINUATION frame without headers")) :=
  join_cont_violation (ContinuableFrame.Headers ⟨1, 0, []⟩) (HttpFrame.Data 1 0 []) []
    ⟨5, 0, []⟩ [] (by decide) (fun _ h => nomatch h)

theorem preface_length : PREFACE.length = 24 := by decide

theorem server_handshake_match (s : List Nat) (h24 : 24 ≤ s.length)
    (hp : s.take 24 = PREFACE) :
    server_handshake s = (Except.ok (), s.drop 24, send_settings) := by
  unfold server_handshake read_exact
  rw [preface_length]
  simp only [h24, if_pos]
  rw [if_pos hp]

theorem server_handshake_mismatch_tls (s : List Nat) (h24 : 24 ≤ s.length)
    (hp : s.take 24 ≠ PREFACE) (h16 : (s.take 24).getD 0 0 = 0x16) :
    server_handshake s =
      (Except.error
        (Error.InvalidFrame ("wrong preface, likely TLS: " ++ bsDebug (s.take 24))),
        s.drop 24, []) := by
  unfold server_handshake read_exact
  rw [preface_length]
  simp only [h24, if_pos]
  rw [if_neg hp, if_pos h16]

theorem server_handshake_mismatch_other (s : List Nat) (h24 : 24 ≤ s.length)
    (hp : s.take 24 ≠ PREFACE) (h16 : (s.take 24).getD 0 0 ≠ 0x16) :
    server_handshake s =
      (Except.error (Error.InvalidFrame ("wrong preface: " ++ bsDebug (s.take 24))),
        s.drop 24, []) := by
  unfold server_handshake read_exact
  rw [preface_length]
  simp only [h24, if_pos]
  rw [if_neg hp, if_neg h16]

/-- C5 counterexample: 24 bytes of zeros differ from the preface, and
`server_handshake` fails with an `InvalidFrame` error, not with the
connection error code `PROTOCOL_ERROR` the claim names. -/
theorem server_handshake_counterexample :
    (server_handshake (List.replicate 24 0)).1 ≠
      Except.error (Error.CodeError ErrorCode.ProtocolError) ∧
    invalidFrameMsg (server_handshake (List.replicate 24 0)).1 ≠ none := by
  have h := server_handshake_mismatch_other (List.replicate 24 0) (by decide)
    (by decide) (by decide)
  rw [h]
  exact ⟨by simp, by simp [invalidFrameMsg]⟩

/-- C5 (amended): `server_handshake` reads exactly 24 bytes, succeeds if
and only if they equal the preface literal (failing otherwise with an
`InvalidFrame` error), and on success writes the initial SETTINGS frame. -/
theorem server_handshake_preface_check (s : List Nat) (h24 : 24 ≤ s.length) :
    (server_handshake s).2.1 = s.drop 24 ∧
    (s.take 24 = PREFACE →
      server_handshake s = (Except.ok (), s.drop 24, send_settings)) ∧
    (s.take 24 ≠ PREFACE →
      ∃ m, server_handshake s =
        (Except.error (Error.InvalidFrame m), s.drop 24, [])) := by
  by_cases hp : s.take 24 = PREFACE
  · refine ⟨?_, fun _ => server_handshake_match s h24 hp, fun hne => absurd hp hne⟩
    rw [server_handshake_match s h24 hp]
  · by_cases h16 : (s.take 24).getD 0 0 = 0x16
    · refine ⟨?_, fun heq => absurd heq hp,
        fun _ => ⟨_, server_handshake_mismatch_tls s h24 hp h16⟩⟩
      rw [server_handshake_mismatch_tls s h24 hp h16]
    · refine ⟨?_, fun heq => absurd heq hp,
        fun _ => ⟨_, server_handshake_mismatch_other s h24 hp h16⟩⟩
      rw [server_handshake_mismatch_other s h24 hp h16]

/-- C5 witness: on exactly the preface bytes the handshake succeeds,
consumes all 24 bytes, and writes the initial SETTINGS frame. -/
theorem server_handshake_preface_check_witness :
    server_handshake PREFACE = (Except.ok (), [], send_settings) := by
  have h := (server_handshake_preface_check PREFACE (by decide)).2.1 (by decide)
  rw [h]
  rfl

theorem hexChar_ne_l (n : Nat) : hexChar n ≠ 'l' := by
  have hall : ∀ c ∈ hexDigits, c ≠ 'l' := by decide
  unfold hexChar
  by_cases h : n < hexDigits.length
  · exact hall _ (by simp [List.getD, List.getElem?_eq_getElem h])
  · push_neg at h
    have hd : hexDigits.getD n '0' = '0' := by
      simp [List.getD, List.getElem?_eq_none h]
    rw [hd]
    decide

theorem bsDebug_no_l (bytes : List Nat) : 'l' ∉ (bsDebug bytes).data := by
  intro hl
  obtain ⟨a, _, hmem⟩ := List.mem_flatMap.mp hl
  simp only [List.mem_cons, List.not_mem_nil, or_false] at hmem
  rcases hmem with h | h | h
  · exact hexChar_ne_l _ h.symm
  · exact hexChar_ne_l _ h.symm
  · exact absurd h.symm (by decide)

theorem contains_hint_prefix (d : String) :
    containsLikelyTls (("wrong preface, likely TLS: ") ++ d) := by
  refine ⟨("wrong preface, ").data, (": ").data ++ d.data, ?_⟩
  rw [String.data_append]
  have h : ("wrong preface, likely TLS: ").data =
      ("wrong preface, ").data ++ (("likely TLS").data ++ (": ").data) := by decide
  rw [h]
  simp [List.append_assoc]

theorem no_l_not_contains (m : String) (h : 'l' ∉ m.data) : ¬ containsLikelyTls m := by
  rintro ⟨a, b, hm⟩
  apply h
  rw [hm]
  refine List.mem_append.mpr (Or.inl (List.mem_append.mpr (Or.inr ?_)))
  decide

/-- C6: on a preface mismatch, the error message carries the "likely TLS"
hint exactly when the first received byte is 0x16. -/
theorem server_handshake_tls_hint (s : List Nat) (h24 : 24 ≤ s.length)
    (hne : s.take 24 ≠ PREFACE) :
    (s.getD 0 0 = 0x16 → msgContainsHint (server_handshake s).1) ∧
    (s.getD 0 0 ≠ 0x16 →
      (∃ m, invalidFrameMsg (server_handshake s).1 = some m) ∧
      ¬ msgContainsHint (server_handshake s).1) := by
  have hget : (s.take 24).getD 0 0 = s.getD 0 0 := by
    simp [List.getD, List.getElem?_take, (by norm_num : (0 : Nat) < 24)]
  constructor
  · intro h16
    rw [server_handshake_mismatch_tls s h24 hne (hget.trans h16)]
    exact ⟨_, rfl, contains_hint_prefix _⟩
  · intro h16
    rw [server_handshake_mismatch_other s h24 hne (fun hh => h16 (hget.symm.trans hh))]
    refine ⟨⟨_, rfl⟩, ?_⟩
    rintro ⟨m, hm, hcont⟩
    simp only [invalidFrameMsg, Option.some_inj] at hm
    rw [← hm] at hcont
    refine no_l_not_contains _ ?_ hcont
    rw [String.data_append]
    intro hl
    rcases List.mem_append.mp hl with h | h
    · exact absurd h (by decide)
    · exact bsDebug_no_l _ h

/-- C6 witness: a first byte of 0x16 yields the "likely TLS" hint and a
zero first byte does not. -/
theorem server_handshake_tls_hint_witness :
    msgContainsHint (server_handshake (0x16 :: List.replicate 23 0)).1 ∧
    ¬ msgContainsHint (server_handshake (List.replicate 24 0)).1 := by
  constructor
  · exact (server_handshake_tls_hint (0x16 :: List.replicate 23 0)
      (by decide) (by decide)).1 (by decide)
  · exact ((server_handshake_tls_hint (List.replicate 24 0)
      (by decide) (by decide)).2 (by decide)).2

end Http2
